import Mathlib

/-!
Verification of the media-copy arbitration core
(media_softlet/agnostic/common/shared/mediacopy/media_copy.cpp).

The file shallowly embeds the class MediaCopyBaseState: the capability
evaluator (CapabilityCheck), the engine selector (CopyEnigneSelect, keeping
the source spelling), the dispatch sequencer (TaskDispatch), the orchestrator
(SurfaceCopy) and the auxiliary-copy stub (AuxCopy).  External collaborators
(the platform feature-support predicate, the per-engine format checks, the
resource queries, the decompression hook and the three engine executors) are
parameters of the embedding.  TaskDispatch additionally produces a trace of
the observable events inside the mutex-guarded region (lock acquire and
release, decompression, executor invocation, frame-counter advance), so that
locking and ordering properties can be stated.
-/

namespace MediaCopy

/-- MOS status codes used by this core.  Success, the two specific error
codes that media_copy.cpp returns itself (invalid parameter, invalid handle),
the not-supported code (MOS_STATUS_UNIMPLEMENTED, never returned by this
file but named by the spec), and an escape constructor for the arbitrary
failure codes external collaborators can return. -/
inductive MOS_STATUS where
  | success
  | invalidParameter
  | invalidHandle
  | unimplemented
  | other (code : Nat)
deriving DecidableEq, Repr

/-- Copy engines, enum MCPY_ENGINE (MCPY_ENGINE_VEBOX = 0, MCPY_ENGINE_BLT,
MCPY_ENGINE_RENDER). -/
inductive MCPY_ENGINE where
  | vebox
  | blt
  | render
deriving DecidableEq, Repr

/-- Content-protection mode, enum MCPY_CPMODE. -/
inductive MCPY_CPMODE where
  | clear
  | cp
deriving DecidableEq, Repr

/-- Tile layout, enum MOS_TILE_TYPE; only linear versus non-linear matters
to this core. -/
inductive MOS_TILE_TYPE where
  | tileX
  | tileY
  | tileYf
  | tileYs
  | linear
  | invalid
deriving DecidableEq, Repr

/-- Memory-compression state, MOS_MEMCOMP_STATE (MOS_MMC_DISABLED and the
active modes). -/
inductive MOS_MEMCOMP_STATE where
  | disabled
  | mc
  | rc
deriving DecidableEq, Repr

/-- Engine capability bitset, struct MCPY_ENGINE_CAPS.  The header that
declares it is outside the excerpt; per the data-model section of the design
it holds the three eligibility flags plus one reserved flag. -/
structure MCPY_ENGINE_CAPS where
  engineVebox : Bool
  engineBlt : Bool
  engineRender : Bool
  engineRsvd : Bool
deriving DecidableEq, Repr

/-- Surface descriptor, struct MCPY_STATE_PARAMS: resource handle (abstract
identifier), compression mode, tile mode, protection mode, auxiliary flag.
Field names follow the source, including the bAuxSuface spelling. -/
structure MCPY_STATE_PARAMS where
  OsRes : Nat
  CompressionMode : MOS_MEMCOMP_STATE
  TileMode : MOS_TILE_TYPE
  CpMode : MCPY_CPMODE
  bAuxSuface : Bool
deriving DecidableEq, Repr

/-- MCPY_METHOD enum values.  The header is outside the excerpt; the listed
members are Default, PowerSaving, Balance, Performance, and the debug force
setting compares against the raw value 4 (the bypass), which is outside the
enum.  Preferences are therefore modelled as raw naturals. -/
def MCPY_METHOD_DEFAULT : Nat := 0

/-- MCPY_METHOD_POWERSAVING enum value. -/
def MCPY_METHOD_POWERSAVING : Nat := 1

/-- MCPY_METHOD_BALANCE enum value. -/
def MCPY_METHOD_BALANCE : Nat := 2

/-- MCPY_METHOD_PERFORMANCE enum value. -/
def MCPY_METHOD_PERFORMANCE : Nat := 3

/-- Observable events of one TaskDispatch call, in program order. -/
inductive DispatchEvent where
  | lockAcquire
  | lockRelease
  | decompress (res : Nat)
  | exec (engine : MCPY_ENGINE)
  | frameAdvance
deriving DecidableEq, Repr

/-- External collaborators consumed by TaskDispatch: the decompression hook
and the three engine executors, each mapping resource handles to a status. -/
structure ExternalOps where
  decompResource : Nat → MOS_STATUS
  veboxCopy : Nat → Nat → MOS_STATUS
  bltCopy : Nat → Nat → MOS_STATUS
  renderCopy : Nat → Nat → MOS_STATUS

/-- Result of one TaskDispatch call: the returned status, the event trace,
and the dump-frame counter after the call (none when no dumper is
configured). -/
structure DispatchResult where
  status : MOS_STATUS
  trace : List DispatchEvent
  frameNum : Option Nat
deriving DecidableEq, Repr

/-- MediaCopyBaseState::CapabilityCheck.  Inputs: the outcome of the
platform feature-support predicate (its status and the capability set it
wrote into caps, an in-out argument initialised by the caller), the results
of the two per-engine format checks (IsVeboxCopySupported and
RenderFormatSupportCheck, implemented by derived classes), the
m_allowCPBltCopy policy flag, and the two descriptors.  Output: the final
status together with the capability set. -/
def CapabilityCheck (fsStatus : MOS_STATUS) (fsCaps : MCPY_ENGINE_CAPS)
    (veboxSupported renderSupported : Bool) (allowCPBltCopy : Bool)
    (mcpySrc mcpyDst : MCPY_STATE_PARAMS) : MOS_STATUS × MCPY_ENGINE_CAPS :=
  if fsStatus ≠ MOS_STATUS.success then
    (fsStatus, fsCaps)
  else if mcpySrc.CpMode = MCPY_CPMODE.cp ∧ mcpyDst.CpMode = MCPY_CPMODE.clear ∧
      allowCPBltCopy = false then
    (MOS_STATUS.invalidParameter, fsCaps)
  else
    let caps1 := if veboxSupported = false ∨ mcpySrc.bAuxSuface = true then
        { fsCaps with engineVebox := false } else fsCaps
    let caps2 := if renderSupported = false ∨ mcpySrc.bAuxSuface = true then
        { caps1 with engineRender := false } else caps1
    if caps2.engineVebox = false ∧ caps2.engineBlt = false ∧
        caps2.engineRender = false then
      (MOS_STATUS.invalidParameter, caps2)
    else
      (MOS_STATUS.success, caps2)

/-- MediaCopyBaseState::CopyEnigneSelect (source spelling).  mcpyEngine is an
in-out reference: mcpyEngineIn is its value on entry, the second component of
the result is its value on exit.  forceMode models m_MCPYForceMode, the debug
force-override setting read at initialisation. -/
def CopyEnigneSelect (preferMethod : Nat) (mcpyEngineIn : MCPY_ENGINE)
    (caps : MCPY_ENGINE_CAPS) (forceMode : Nat) : MOS_STATUS × MCPY_ENGINE :=
  let e :=
    if preferMethod = MCPY_METHOD_PERFORMANCE ∨ preferMethod = MCPY_METHOD_DEFAULT then
      if caps.engineRender then MCPY_ENGINE.render
      else if caps.engineBlt then MCPY_ENGINE.blt
      else MCPY_ENGINE.vebox
    else if preferMethod = MCPY_METHOD_BALANCE then
      if caps.engineVebox then MCPY_ENGINE.vebox
      else if caps.engineBlt then MCPY_ENGINE.blt
      else MCPY_ENGINE.render
    else if preferMethod = MCPY_METHOD_POWERSAVING then
      if caps.engineBlt then MCPY_ENGINE.blt
      else if caps.engineVebox then MCPY_ENGINE.vebox
      else MCPY_ENGINE.render
    else
      mcpyEngineIn
  if forceMode = MCPY_METHOD_PERFORMANCE then
    (MOS_STATUS.success, MCPY_ENGINE.render)
  else if forceMode = MCPY_METHOD_POWERSAVING then
    (MOS_STATUS.success, MCPY_ENGINE.blt)
  else if forceMode = MCPY_METHOD_BALANCE then
    (MOS_STATUS.success, MCPY_ENGINE.vebox)
  else if forceMode = 4 then
    (MOS_STATUS.invalidParameter, e)
  else
    (MOS_STATUS.success, e)

/-- MediaCopyBaseState::TaskDispatch.  dumper is the frame counter of the
configured surface dumper (none when m_surfaceDumper is null).  The body
acquires m_inUseGPUMutex, runs the engine switch (with the mandatory
pre-decompression on the Blt path for a non-linear compressed source,
unlocking and returning early when decompression fails), releases the mutex,
and in the post block advances the dumper frame counter. -/
def TaskDispatch (ext : ExternalOps) (dumper : Option Nat)
    (mcpySrc mcpyDst : MCPY_STATE_PARAMS) (mcpyEngine : MCPY_ENGINE) :
    DispatchResult :=
  let locked : List DispatchEvent := [DispatchEvent.lockAcquire]
  match mcpyEngine with
  | MCPY_ENGINE.vebox =>
      let s := ext.veboxCopy mcpySrc.OsRes mcpyDst.OsRes
      { status := s,
        trace := locked ++ [DispatchEvent.exec MCPY_ENGINE.vebox,
                            DispatchEvent.lockRelease] ++
                 (match dumper with
                  | some _ => [DispatchEvent.frameAdvance]
                  | none => []),
        frameNum := dumper.map (fun n => n + 1) }
  | MCPY_ENGINE.render =>
      let s := ext.renderCopy mcpySrc.OsRes mcpyDst.OsRes
      { status := s,
        trace := locked ++ [DispatchEvent.exec MCPY_ENGINE.render,
                            DispatchEvent.lockRelease] ++
                 (match dumper with
                  | some _ => [DispatchEvent.frameAdvance]
                  | none => []),
        frameNum := dumper.map (fun n => n + 1) }
  | MCPY_ENGINE.blt =>
      if mcpySrc.TileMode ≠ MOS_TILE_TYPE.linear ∧
          mcpySrc.CompressionMode ≠ MOS_MEMCOMP_STATE.disabled then
        let d := ext.decompResource mcpySrc.OsRes
        if d ≠ MOS_STATUS.success then
          { status := d,
            trace := locked ++ [DispatchEvent.decompress mcpySrc.OsRes,
                                DispatchEvent.lockRelease],
            frameNum := dumper }
        else
          let s := ext.bltCopy mcpySrc.OsRes mcpyDst.OsRes
          { status := s,
            trace := locked ++ [DispatchEvent.decompress mcpySrc.OsRes,
                                DispatchEvent.exec MCPY_ENGINE.blt,
                                DispatchEvent.lockRelease] ++
                     (match dumper with
                      | some _ => [DispatchEvent.frameAdvance]
                      | none => []),
            frameNum := dumper.map (fun n => n + 1) }
      else
        let s := ext.bltCopy mcpySrc.OsRes mcpyDst.OsRes
        { status := s,
          trace := locked ++ [DispatchEvent.exec MCPY_ENGINE.blt,
                              DispatchEvent.lockRelease] ++
                   (match dumper with
                    | some _ => [DispatchEvent.frameAdvance]
                    | none => []),
          frameNum := dumper.map (fun n => n + 1) }

/-- MediaCopyBaseState::PreCheckCpCopy: the base-class hook is a no-op
success. -/
def PreCheckCpCopy (src dst : MCPY_STATE_PARAMS) (preferMethod : Nat) :
    MOS_STATUS :=
  MOS_STATUS.success

/-- MediaCopyBaseState::AuxCopy at the base layer: logs and returns
MOS_STATUS_INVALID_HANDLE unconditionally. -/
def AuxCopy (src dst : Nat) : MOS_STATUS :=
  MOS_STATUS.invalidHandle

/-- Environment of one SurfaceCopy call: the outcomes of every external
query and collaborator it consults, plus the instance state (policy flag,
force mode, dumper, executors). -/
structure CopyEnv where
  srcInfoStatus : MOS_STATUS
  srcCompStatus : MOS_STATUS
  srcCompressionMode : MOS_MEMCOMP_STATE
  srcTileMode : MOS_TILE_TYPE
  srcCpTag : Bool
  dstInfoStatus : MOS_STATUS
  dstCompStatus : MOS_STATUS
  dstCompressionMode : MOS_MEMCOMP_STATE
  dstTileMode : MOS_TILE_TYPE
  dstCpTag : Bool
  fsStatus : MOS_STATUS
  fsCaps : MCPY_ENGINE_CAPS
  veboxSupported : Bool
  renderSupported : Bool
  allowCPBltCopy : Bool
  forceMode : Nat
  ext : ExternalOps
  dumper : Option Nat

/-- Source descriptor as SurfaceCopy builds it: CompressionMode from the
compression query, TileMode from the resource query, CpMode from the Gmm
protection tag, bAuxSuface stays at its initialiser false. -/
def mkSrcParams (env : CopyEnv) (src : Nat) : MCPY_STATE_PARAMS :=
  { OsRes := src,
    CompressionMode := env.srcCompressionMode,
    TileMode := env.srcTileMode,
    CpMode := if env.srcCpTag then MCPY_CPMODE.cp else MCPY_CPMODE.clear,
    bAuxSuface := false }

/-- Destination descriptor as SurfaceCopy builds it. -/
def mkDstParams (env : CopyEnv) (dst : Nat) : MCPY_STATE_PARAMS :=
  { OsRes := dst,
    CompressionMode := env.dstCompressionMode,
    TileMode := env.dstTileMode,
    CpMode := if env.dstCpTag then MCPY_CPMODE.cp else MCPY_CPMODE.clear,
    bAuxSuface := false }

/-- Result of one SurfaceCopy call: the returned status, and, when control
reached TaskDispatch, the engine it was invoked with together with its
result. -/
structure CopyResult where
  status : MOS_STATUS
  dispatched : Option (MCPY_ENGINE × DispatchResult)

/-- MediaCopyBaseState::SurfaceCopy.  Each MCPY_CHK_STATUS_RETURN aborts on
the first non-success status.  Note the call to CopyEnigneSelect at line 255
is NOT wrapped in MCPY_CHK_STATUS_RETURN: its status is discarded, only the
engine written through the reference is used.  mcpyEngine is initialised to
MCPY_ENGINE_BLT.  The local caps value is initialised all-true and then
written by FeatureSupport inside CapabilityCheck; env.fsCaps is its state
after that write. -/
def SurfaceCopy (env : CopyEnv) (src dst : Nat) (preferMethod : Nat) :
    CopyResult :=
  let mcpyEngine0 := MCPY_ENGINE.blt
  if env.srcInfoStatus ≠ MOS_STATUS.success then
    { status := env.srcInfoStatus, dispatched := none }
  else if env.srcCompStatus ≠ MOS_STATUS.success then
    { status := env.srcCompStatus, dispatched := none }
  else if env.dstInfoStatus ≠ MOS_STATUS.success then
    { status := env.dstInfoStatus, dispatched := none }
  else if env.dstCompStatus ≠ MOS_STATUS.success then
    { status := env.dstCompStatus, dispatched := none }
  else
    let mcpySrc := mkSrcParams env src
    let mcpyDst := mkDstParams env dst
    let pre := PreCheckCpCopy mcpySrc mcpyDst preferMethod
    if pre ≠ MOS_STATUS.success then
      { status := pre, dispatched := none }
    else
      let capRes := CapabilityCheck env.fsStatus env.fsCaps
        env.veboxSupported env.renderSupported env.allowCPBltCopy
        mcpySrc mcpyDst
      if capRes.1 ≠ MOS_STATUS.success then
        { status := capRes.1, dispatched := none }
      else
        let sel := CopyEnigneSelect preferMethod mcpyEngine0 capRes.2
          env.forceMode
        let mcpyEngine := sel.2
        let disp := TaskDispatch env.ext env.dumper mcpySrc mcpyDst mcpyEngine
        if disp.status ≠ MOS_STATUS.success then
          { status := disp.status, dispatched := some (mcpyEngine, disp) }
        else
          { status := MOS_STATUS.success,
            dispatched := some (mcpyEngine, disp) }

/-- Whether an engine is eligible in a capability set. -/
def eligible (e : MCPY_ENGINE) (caps : MCPY_ENGINE_CAPS) : Bool :=
  match e with
  | MCPY_ENGINE.vebox => caps.engineVebox
  | MCPY_ENGINE.blt => caps.engineBlt
  | MCPY_ENGINE.render => caps.engineRender

/-- The fixed priority table of the design, section 4.2, stated from the
specification text: Render > Blt > Vebox for Default and Performance,
Vebox > Blt > Render for Balance, Blt > Vebox > Render for PowerSaving.
Used only to compare the selector against the specification. -/
def specPriorityOrder (preferMethod : Nat) : List MCPY_ENGINE :=
  if preferMethod = MCPY_METHOD_DEFAULT ∨ preferMethod = MCPY_METHOD_PERFORMANCE then
    [MCPY_ENGINE.render, MCPY_ENGINE.blt, MCPY_ENGINE.vebox]
  else if preferMethod = MCPY_METHOD_BALANCE then
    [MCPY_ENGINE.vebox, MCPY_ENGINE.blt, MCPY_ENGINE.render]
  else
    [MCPY_ENGINE.blt, MCPY_ENGINE.vebox, MCPY_ENGINE.render]

/-- First eligible engine of a priority list, stated from the specification
text. -/
def firstEligible (order : List MCPY_ENGINE) (caps : MCPY_ENGINE_CAPS) :
    Option MCPY_ENGINE :=
  order.find? (fun e => eligible e caps)

/-- Number of occurrences of an event in a trace. -/
def countEvent (t : List DispatchEvent) (e : DispatchEvent) : Nat :=
  t.count e

/-- Whether an event is an executor invocation. -/
def isExec : DispatchEvent → Bool
  | DispatchEvent.exec _ => true
  | _ => false

/-- Whether an event is a decompression invocation. -/
def isDecomp : DispatchEvent → Bool
  | DispatchEvent.decompress _ => true
  | _ => false

/-- No decompression event occurs after an executor event: every
decompression precedes every executor invocation. -/
def decompBeforeExec : List DispatchEvent → Bool
  | [] => true
  | e :: rest =>
    if isExec e then rest.all (fun x => !isDecomp x)
    else decompBeforeExec rest

/-- Number of decompression events in a trace. -/
def countDecomp (t : List DispatchEvent) : Nat :=
  (t.filter isDecomp).length

/-- Whether the lock is held after replaying a trace (acquire sets, release
clears). -/
def lockHeldAfter (t : List DispatchEvent) : Bool :=
  t.foldl
    (fun held e =>
      match e with
      | DispatchEvent.lockAcquire => true
      | DispatchEvent.lockRelease => false
      | _ => held)
    false

/-- Engine the orchestrator handed to TaskDispatch, when dispatch was
reached. -/
def dispatchedEngine (r : CopyResult) : Option MCPY_ENGINE :=
  r.dispatched.map Prod.fst

/-- C2: with one of the four defined preferences, at least one eligibility
flag true, and no force-override active, CopyEnigneSelect succeeds and
writes the first eligible engine of the priority table of the preference;
that engine is eligible per caps. -/
theorem C2_select_first_eligible (preferMethod : Nat) (eIn : MCPY_ENGINE)
    (caps : MCPY_ENGINE_CAPS) (forceMode : Nat)
    (hp : preferMethod = MCPY_METHOD_DEFAULT ∨
          preferMethod = MCPY_METHOD_PERFORMANCE ∨
          preferMethod = MCPY_METHOD_BALANCE ∨
          preferMethod = MCPY_METHOD_POWERSAVING)
    (hcaps : caps.engineVebox = true ∨ caps.engineBlt = true ∨
             caps.engineRender = true)
    (hf1 : forceMode ≠ MCPY_METHOD_PERFORMANCE)
    (hf2 : forceMode ≠ MCPY_METHOD_POWERSAVING)
    (hf3 : forceMode ≠ MCPY_METHOD_BALANCE)
    (hf4 : forceMode ≠ 4) :
    (CopyEnigneSelect preferMethod eIn caps forceMode).1 =
      MOS_STATUS.success ∧
    firstEligible (specPriorityOrder preferMethod) caps =
      some (CopyEnigneSelect preferMethod eIn caps forceMode).2 ∧
    eligible (CopyEnigneSelect preferMethod eIn caps forceMode).2 caps =
      true := by
  obtain ⟨v, b, r, rv⟩ := caps
  unfold CopyEnigneSelect firstEligible specPriorityOrder eligible
  rw [if_neg hf1, if_neg hf2, if_neg hf3, if_neg hf4]
  rcases hp with h | h | h | h <;> subst h <;>
    cases v <;> cases b <;> cases r <;>
    simp_all [MCPY_METHOD_DEFAULT, MCPY_METHOD_PERFORMANCE,
      MCPY_METHOD_BALANCE, MCPY_METHOD_POWERSAVING]

/-- Witness for C2 at a concrete input: preference Default, caps with Vebox
and Blt eligible and Render not, no force-override, entry engine Blt. -/
theorem C2_select_first_eligible_witness :
    (CopyEnigneSelect MCPY_METHOD_DEFAULT MCPY_ENGINE.blt
        ⟨true, true, false, true⟩ MCPY_METHOD_DEFAULT).1 =
      MOS_STATUS.success ∧
    firstEligible (specPriorityOrder MCPY_METHOD_DEFAULT)
        ⟨true, true, false, true⟩ =
      some (CopyEnigneSelect MCPY_METHOD_DEFAULT MCPY_ENGINE.blt
        ⟨true, true, false, true⟩ MCPY_METHOD_DEFAULT).2 ∧
    eligible (CopyEnigneSelect MCPY_METHOD_DEFAULT MCPY_ENGINE.blt
        ⟨true, true, false, true⟩ MCPY_METHOD_DEFAULT).2
        ⟨true, true, false, true⟩ = true :=
  C2_select_first_eligible MCPY_METHOD_DEFAULT MCPY_ENGINE.blt
    ⟨true, true, false, true⟩ MCPY_METHOD_DEFAULT
    (Or.inl rfl) (Or.inl rfl) (by decide) (by decide) (by decide) (by decide)

/-- C5: when the feature-support predicate succeeded (with any capability
set), the source is protected, the destination is clear and the
protection-downgrade policy flag is off, CapabilityCheck fails with
invalid-parameter, whatever the format checks and the rest of the
descriptors say. -/
theorem C5_protection_downgrade_rejected (fsCaps : MCPY_ENGINE_CAPS)
    (veboxSupported renderSupported : Bool)
    (src dst : MCPY_STATE_PARAMS)
    (hs : src.CpMode = MCPY_CPMODE.cp)
    (hd : dst.CpMode = MCPY_CPMODE.clear) :
    (CapabilityCheck MOS_STATUS.success fsCaps veboxSupported
        renderSupported false src dst).1 = MOS_STATUS.invalidParameter := by
  simp [CapabilityCheck, hs, hd]

/-- Witness for C5 at a concrete input: protected tiled compressed source,
clear destination, all engines enabled by the platform predicate. -/
theorem C5_protection_downgrade_rejected_witness :
    (CapabilityCheck MOS_STATUS.success ⟨true, true, true, true⟩ true true
        false
        ⟨0, MOS_MEMCOMP_STATE.rc, MOS_TILE_TYPE.tileY, MCPY_CPMODE.cp, false⟩
        ⟨1, MOS_MEMCOMP_STATE.disabled, MOS_TILE_TYPE.linear,
          MCPY_CPMODE.clear, false⟩).1 = MOS_STATUS.invalidParameter :=
  C5_protection_downgrade_rejected ⟨true, true, true, true⟩ true true
    ⟨0, MOS_MEMCOMP_STATE.rc, MOS_TILE_TYPE.tileY, MCPY_CPMODE.cp, false⟩
    ⟨1, MOS_MEMCOMP_STATE.disabled, MOS_TILE_TYPE.linear,
      MCPY_CPMODE.clear, false⟩ rfl rfl

/-- C6: CapabilityCheck never returns success together with an all-false
eligibility set, and the all-false case fails specifically with
invalid-parameter.  First conjunct, on any input whatsoever: a success
status implies at least one of the three engine flags is still true, so the
selector is never reached with an all-false capability set.  Second
conjunct: whenever the platform predicate succeeded (so the eligibility
rules were applied) and the resulting capability set has all three flags
false, the returned status is invalid-parameter. -/
theorem C6_all_false_fails_invalid_parameter (fsStatus : MOS_STATUS)
    (fsCaps : MCPY_ENGINE_CAPS) (veboxSupported renderSupported : Bool)
    (allowCPBltCopy : Bool) (src dst : MCPY_STATE_PARAMS) :
    ((CapabilityCheck fsStatus fsCaps veboxSupported renderSupported
        allowCPBltCopy src dst).1 = MOS_STATUS.success →
      (CapabilityCheck fsStatus fsCaps veboxSupported renderSupported
          allowCPBltCopy src dst).2.engineVebox = true ∨
      (CapabilityCheck fsStatus fsCaps veboxSupported renderSupported
          allowCPBltCopy src dst).2.engineBlt = true ∨
      (CapabilityCheck fsStatus fsCaps veboxSupported renderSupported
          allowCPBltCopy src dst).2.engineRender = true) ∧
    (fsStatus = MOS_STATUS.success →
      (CapabilityCheck fsStatus fsCaps veboxSupported renderSupported
          allowCPBltCopy src dst).2.engineVebox = false ∧
      (CapabilityCheck fsStatus fsCaps veboxSupported renderSupported
          allowCPBltCopy src dst).2.engineBlt = false ∧
      (CapabilityCheck fsStatus fsCaps veboxSupported renderSupported
          allowCPBltCopy src dst).2.engineRender = false →
      (CapabilityCheck fsStatus fsCaps veboxSupported renderSupported
          allowCPBltCopy src dst).1 = MOS_STATUS.invalidParameter) := by
  constructor
  · intro h
    by_cases hfs : fsStatus = MOS_STATUS.success
    · subst hfs
      obtain ⟨v, b, r, rv⟩ := fsCaps
      revert h
      unfold CapabilityCheck
      rcases hsc : src.CpMode <;> rcases hdc : dst.CpMode <;>
        rcases hsa : src.bAuxSuface <;> cases veboxSupported <;>
        cases renderSupported <;> cases allowCPBltCopy <;>
        cases v <;> cases b <;> cases r <;> simp_all
    · exfalso
      apply hfs
      unfold CapabilityCheck at h
      rw [if_pos hfs] at h
      exact h
  · intro hfs h
    subst hfs
    obtain ⟨v, b, r, rv⟩ := fsCaps
    revert h
    unfold CapabilityCheck
    rcases hsc : src.CpMode <;> rcases hdc : dst.CpMode <;>
      rcases hsa : src.bAuxSuface <;> cases veboxSupported <;>
      cases renderSupported <;> cases allowCPBltCopy <;>
      cases v <;> cases b <;> cases r <;> simp_all

/-- Witness for C6 at concrete inputs exercising both conjuncts: one input
on which CapabilityCheck succeeds (showing a surviving flag), and one on
which the platform predicate disabled every engine (showing the
invalid-parameter failure of the all-false case). -/
theorem C6_all_false_fails_invalid_parameter_witness :
    ((CapabilityCheck MOS_STATUS.success ⟨true, true, true, true⟩ true true
        false
        ⟨0, MOS_MEMCOMP_STATE.disabled, MOS_TILE_TYPE.linear,
          MCPY_CPMODE.clear, false⟩
        ⟨1, MOS_MEMCOMP_STATE.disabled, MOS_TILE_TYPE.linear,
          MCPY_CPMODE.clear, false⟩).2.engineVebox = true ∨
    (CapabilityCheck MOS_STATUS.success ⟨true, true, true, true⟩ true true
        false
        ⟨0, MOS_MEMCOMP_STATE.disabled, MOS_TILE_TYPE.linear,
          MCPY_CPMODE.clear, false⟩
        ⟨1, MOS_MEMCOMP_STATE.disabled, MOS_TILE_TYPE.linear,
          MCPY_CPMODE.clear, false⟩).2.engineBlt = true ∨
    (CapabilityCheck MOS_STATUS.success ⟨true, true, true, true⟩ true true
        false
        ⟨0, MOS_MEMCOMP_STATE.disabled, MOS_TILE_TYPE.linear,
          MCPY_CPMODE.clear, false⟩
        ⟨1, MOS_MEMCOMP_STATE.disabled, MOS_TILE_TYPE.linear,
          MCPY_CPMODE.clear, false⟩).2.engineRender = true) ∧
    (CapabilityCheck MOS_STATUS.success ⟨false, false, false, true⟩ true
        true false
        ⟨0, MOS_MEMCOMP_STATE.disabled, MOS_TILE_TYPE.linear,
          MCPY_CPMODE.clear, false⟩
        ⟨1, MOS_MEMCOMP_STATE.disabled, MOS_TILE_TYPE.linear,
          MCPY_CPMODE.clear, false⟩).1 = MOS_STATUS.invalidParameter :=
  ⟨(C6_all_false_fails_invalid_parameter MOS_STATUS.success
      ⟨true, true, true, true⟩ true true false
      ⟨0, MOS_MEMCOMP_STATE.disabled, MOS_TILE_TYPE.linear,
        MCPY_CPMODE.clear, false⟩
      ⟨1, MOS_MEMCOMP_STATE.disabled, MOS_TILE_TYPE.linear,
        MCPY_CPMODE.clear, false⟩).1 (by decide),
   (C6_all_false_fails_invalid_parameter MOS_STATUS.success
      ⟨false, false, false, true⟩ true true false
      ⟨0, MOS_MEMCOMP_STATE.disabled, MOS_TILE_TYPE.linear,
        MCPY_CPMODE.clear, false⟩
      ⟨1, MOS_MEMCOMP_STATE.disabled, MOS_TILE_TYPE.linear,
        MCPY_CPMODE.clear, false⟩).2 rfl (by decide)⟩

/-- C7: when the feature-support predicate succeeded, the source is an
auxiliary surface and the protection rule does not fire, CapabilityCheck
forces the Vebox and Render flags to false regardless of both format
checks, leaves the Blt flag exactly as the platform predicate set it, and
succeeds precisely when that Blt flag is true, failing with
invalid-parameter otherwise. -/
theorem C7_aux_surface_forces_vebox_render_off (fsCaps : MCPY_ENGINE_CAPS)
    (veboxSupported renderSupported : Bool) (allowCPBltCopy : Bool)
    (src dst : MCPY_STATE_PARAMS)
    (haux : src.bAuxSuface = true)
    (hcp : ¬(src.CpMode = MCPY_CPMODE.cp ∧ dst.CpMode = MCPY_CPMODE.clear ∧
        allowCPBltCopy = false)) :
    (CapabilityCheck MOS_STATUS.success fsCaps veboxSupported
        renderSupported allowCPBltCopy src dst).2.engineVebox = false ∧
    (CapabilityCheck MOS_STATUS.success fsCaps veboxSupported
        renderSupported allowCPBltCopy src dst).2.engineRender = false ∧
    (CapabilityCheck MOS_STATUS.success fsCaps veboxSupported
        renderSupported allowCPBltCopy src dst).2.engineBlt =
      fsCaps.engineBlt ∧
    ((CapabilityCheck MOS_STATUS.success fsCaps veboxSupported
        renderSupported allowCPBltCopy src dst).1 = MOS_STATUS.success ↔
      fsCaps.engineBlt = true) ∧
    ((CapabilityCheck MOS_STATUS.success fsCaps veboxSupported
        renderSupported allowCPBltCopy src dst).1 =
        MOS_STATUS.invalidParameter ↔ fsCaps.engineBlt = false) := by
  obtain ⟨v, b, r, rv⟩ := fsCaps
  unfold CapabilityCheck
  rw [if_neg (by simp), if_neg hcp]
  cases b <;> simp_all

/-- Witness for C7 at a concrete input: auxiliary source, both format
checks passing, platform predicate enabling all engines. -/
theorem C7_aux_surface_forces_vebox_render_off_witness :
    (CapabilityCheck MOS_STATUS.success ⟨true, true, true, true⟩ true true
        true
        ⟨0, MOS_MEMCOMP_STATE.disabled, MOS_TILE_TYPE.tileY,
          MCPY_CPMODE.clear, true⟩
        ⟨1, MOS_MEMCOMP_STATE.disabled, MOS_TILE_TYPE.linear,
          MCPY_CPMODE.clear, false⟩).2.engineVebox = false ∧
    (CapabilityCheck MOS_STATUS.success ⟨true, true, true, true⟩ true true
        true
        ⟨0, MOS_MEMCOMP_STATE.disabled, MOS_TILE_TYPE.tileY,
          MCPY_CPMODE.clear, true⟩
        ⟨1, MOS_MEMCOMP_STATE.disabled, MOS_TILE_TYPE.linear,
          MCPY_CPMODE.clear, false⟩).2.engineRender = false ∧
    (CapabilityCheck MOS_STATUS.success ⟨true, true, true, true⟩ true true
        true
        ⟨0, MOS_MEMCOMP_STATE.disabled, MOS_TILE_TYPE.tileY,
          MCPY_CPMODE.clear, true⟩
        ⟨1, MOS_MEMCOMP_STATE.disabled, MOS_TILE_TYPE.linear,
          MCPY_CPMODE.clear, false⟩).2.engineBlt =
      (⟨true, true, true, true⟩ : MCPY_ENGINE_CAPS).engineBlt ∧
    ((CapabilityCheck MOS_STATUS.success ⟨true, true, true, true⟩ true true
        true
        ⟨0, MOS_MEMCOMP_STATE.disabled, MOS_TILE_TYPE.tileY,
          MCPY_CPMODE.clear, true⟩
        ⟨1, MOS_MEMCOMP_STATE.disabled, MOS_TILE_TYPE.linear,
          MCPY_CPMODE.clear, false⟩).1 = MOS_STATUS.success ↔
      (⟨true, true, true, true⟩ : MCPY_ENGINE_CAPS).engineBlt = true) ∧
    ((CapabilityCheck MOS_STATUS.success ⟨true, true, true, true⟩ true true
        true
        ⟨0, MOS_MEMCOMP_STATE.disabled, MOS_TILE_TYPE.tileY,
          MCPY_CPMODE.clear, true⟩
        ⟨1, MOS_MEMCOMP_STATE.disabled, MOS_TILE_TYPE.linear,
          MCPY_CPMODE.clear, false⟩).1 = MOS_STATUS.invalidParameter ↔
      (⟨true, true, true, true⟩ : MCPY_ENGINE_CAPS).engineBlt = false) :=
  C7_aux_surface_forces_vebox_render_off ⟨true, true, true, true⟩ true true
    true
    ⟨0, MOS_MEMCOMP_STATE.disabled, MOS_TILE_TYPE.tileY,
      MCPY_CPMODE.clear, true⟩
    ⟨1, MOS_MEMCOMP_STATE.disabled, MOS_TILE_TYPE.linear,
      MCPY_CPMODE.clear, false⟩ rfl (by decide)

/-- C3: on every TaskDispatch call, whatever the engine, the external
outcomes and the dumper state, the trace acquires the dispatch lock exactly
once, releases it exactly once, and the lock is no longer held when the
call returns, on the decompression-failure path, the executor-failure path
and the success path alike. -/
theorem C3_lock_acquired_released_once (ext : ExternalOps)
    (dumper : Option Nat) (src dst : MCPY_STATE_PARAMS)
    (engine : MCPY_ENGINE) :
    countEvent (TaskDispatch ext dumper src dst engine).trace
      DispatchEvent.lockAcquire = 1 ∧
    countEvent (TaskDispatch ext dumper src dst engine).trace
      DispatchEvent.lockRelease = 1 ∧
    lockHeldAfter (TaskDispatch ext dumper src dst engine).trace = false := by
  cases engine <;> cases dumper <;>
    simp only [TaskDispatch] <;> (try split_ifs) <;>
    simp [countEvent, lockHeldAfter]

/-- C4: on every TaskDispatch call, the decompression hook runs exactly
once when the engine is Blt, the source tile mode is not linear and the
source compression mode is not disabled, and never otherwise; and no
decompression event ever follows an executor invocation, so when it runs it
runs before the executor. -/
theorem C4_decompress_exactly_when_blt_tiled_compressed
    (ext : ExternalOps) (dumper : Option Nat)
    (src dst : MCPY_STATE_PARAMS) (engine : MCPY_ENGINE) :
    countDecomp (TaskDispatch ext dumper src dst engine).trace =
      (if engine = MCPY_ENGINE.blt ∧ src.TileMode ≠ MOS_TILE_TYPE.linear ∧
          src.CompressionMode ≠ MOS_MEMCOMP_STATE.disabled then 1 else 0) ∧
    decompBeforeExec (TaskDispatch ext dumper src dst engine).trace =
      true := by
  cases engine <;> cases dumper <;>
    simp only [TaskDispatch] <;> (try split_ifs) <;>
    simp_all [countDecomp, decompBeforeExec, isDecomp, isExec]

/-- External collaborators that all succeed. -/
def extAllSuccess : ExternalOps :=
  { decompResource := fun _ => MOS_STATUS.success,
    veboxCopy := fun _ _ => MOS_STATUS.success,
    bltCopy := fun _ _ => MOS_STATUS.success,
    renderCopy := fun _ _ => MOS_STATUS.success }

/-- External collaborators whose executors all fail (decompression still
succeeds). -/
def extExecFail : ExternalOps :=
  { decompResource := fun _ => MOS_STATUS.success,
    veboxCopy := fun _ _ => MOS_STATUS.other 1,
    bltCopy := fun _ _ => MOS_STATUS.other 1,
    renderCopy := fun _ _ => MOS_STATUS.other 1 }

/-- A plain linear, uncompressed, clear source descriptor. -/
def srcLinear : MCPY_STATE_PARAMS :=
  { OsRes := 0, CompressionMode := MOS_MEMCOMP_STATE.disabled,
    TileMode := MOS_TILE_TYPE.linear, CpMode := MCPY_CPMODE.clear,
    bAuxSuface := false }

/-- A plain linear, uncompressed, clear destination descriptor. -/
def dstLinear : MCPY_STATE_PARAMS :=
  { OsRes := 1, CompressionMode := MOS_MEMCOMP_STATE.disabled,
    TileMode := MOS_TILE_TYPE.linear, CpMode := MCPY_CPMODE.clear,
    bAuxSuface := false }

/-- C8, amended: with a dump collaborator configured, the frame counter is
advanced exactly once on every dispatch whose trace reaches an executor
invocation — whatever status that executor returns — and is not advanced on
the decompression-failure early return (the only path with no executor
event). -/
theorem C8_frame_advance_iff_executor_ran (ext : ExternalOps) (n : Nat)
    (src dst : MCPY_STATE_PARAMS) (engine : MCPY_ENGINE) :
    (TaskDispatch ext (some n) src dst engine).frameNum =
      (if (TaskDispatch ext (some n) src dst engine).trace.any isExec then
        some (n + 1) else some n) ∧
    countEvent (TaskDispatch ext (some n) src dst engine).trace
        DispatchEvent.frameAdvance =
      (if (TaskDispatch ext (some n) src dst engine).trace.any isExec then
        1 else 0) := by
  cases engine <;>
    simp only [TaskDispatch] <;> (try split_ifs) <;>
    simp_all [countEvent, isExec]

/-- C8, counterexample to the claim as stated: a Vebox dispatch whose
executor fails returns a non-success status, yet the configured dump frame
counter is still advanced from 0 to 1. -/
theorem C8_counterexample_advance_on_failure :
    (TaskDispatch extExecFail (some 0) srcLinear dstLinear
        MCPY_ENGINE.vebox).status ≠ MOS_STATUS.success ∧
    (TaskDispatch extExecFail (some 0) srcLinear dstLinear
        MCPY_ENGINE.vebox).frameNum = some 1 := by
  decide

/-- C9, amended: the base-layer AuxCopy entry point unconditionally returns
the invalid-handle status (its deliberate not-implemented sentinel) without
touching any state. -/
theorem C9_auxcopy_returns_invalid_handle (src dst : Nat) :
    AuxCopy src dst = MOS_STATUS.invalidHandle := by
  rfl

/-- Witness for C9 at a concrete input. -/
theorem C9_auxcopy_returns_invalid_handle_witness :
    AuxCopy 0 1 = MOS_STATUS.invalidHandle :=
  C9_auxcopy_returns_invalid_handle 0 1

/-- C9, counterexample to the claim as stated: AuxCopy returns the
invalid-handle code, which is not the not-supported code the claim
names. -/
theorem C9_counterexample_not_supported :
    AuxCopy 0 1 = MOS_STATUS.invalidHandle ∧
    MOS_STATUS.invalidHandle ≠ MOS_STATUS.unimplemented := by
  decide

/-- Environment for a copy call on which every external stage succeeds, all
engines are enabled, and the debug force mode is the bypass value 4. -/
def envBypass : CopyEnv :=
  { srcInfoStatus := MOS_STATUS.success,
    srcCompStatus := MOS_STATUS.success,
    srcCompressionMode := MOS_MEMCOMP_STATE.disabled,
    srcTileMode := MOS_TILE_TYPE.linear,
    srcCpTag := false,
    dstInfoStatus := MOS_STATUS.success,
    dstCompStatus := MOS_STATUS.success,
    dstCompressionMode := MOS_MEMCOMP_STATE.disabled,
    dstTileMode := MOS_TILE_TYPE.linear,
    dstCpTag := false,
    fsStatus := MOS_STATUS.success,
    fsCaps := { engineVebox := true, engineBlt := true,
                engineRender := true, engineRsvd := true },
    veboxSupported := true,
    renderSupported := true,
    allowCPBltCopy := true,
    forceMode := 4,
    ext := extAllSuccess,
    dumper := none }

/-- C1: at the failing input — force mode 4 (the debug bypass) with every
external stage succeeding — the selection stage returns invalid-parameter,
yet SurfaceCopy still dispatches (to Render, the Default-preference choice)
and returns success: the orchestrator drops the selection status because
the CopyEnigneSelect call is not wrapped in MCPY_CHK_STATUS_RETURN,
defeating the bypass the selector documents. -/
theorem C1_bypass_status_dropped :
    (CopyEnigneSelect MCPY_METHOD_DEFAULT MCPY_ENGINE.blt
        { engineVebox := true, engineBlt := true, engineRender := true,
          engineRsvd := true } 4).1 = MOS_STATUS.invalidParameter ∧
    (SurfaceCopy envBypass 0 1 MCPY_METHOD_DEFAULT).status =
      MOS_STATUS.success ∧
    dispatchedEngine (SurfaceCopy envBypass 0 1 MCPY_METHOD_DEFAULT) =
      some MCPY_ENGINE.render := by
  decide

/-- Selection leaves the engine reference untouched and succeeds when the
preference matches none of the four defined values and no force-override is
active. -/
theorem select_unchanged_of_unknown_pref (p : Nat) (eIn : MCPY_ENGINE)
    (caps : MCPY_ENGINE_CAPS) (fm : Nat)
    (hp1 : p ≠ MCPY_METHOD_DEFAULT) (hp2 : p ≠ MCPY_METHOD_POWERSAVING)
    (hp3 : p ≠ MCPY_METHOD_BALANCE) (hp4 : p ≠ MCPY_METHOD_PERFORMANCE)
    (hf1 : fm ≠ MCPY_METHOD_PERFORMANCE) (hf2 : fm ≠ MCPY_METHOD_POWERSAVING)
    (hf3 : fm ≠ MCPY_METHOD_BALANCE) (hf4 : fm ≠ 4) :
    CopyEnigneSelect p eIn caps fm = (MOS_STATUS.success, eIn) := by
  simp [CopyEnigneSelect, hp1, hp2, hp3, hp4, hf1, hf2, hf3, hf4]

/-- C10: with a preference outside the four defined values and no
force-override, CopyEnigneSelect succeeds leaving the engine reference
untouched; since SurfaceCopy initialises that reference to Blt, a copy call
whose stages before dispatch all pass is dispatched to the Blt engine. -/
theorem C10_unknown_preference_dispatches_blt (env : CopyEnv)
    (src dst : Nat) (p : Nat) (eIn : MCPY_ENGINE)
    (hp1 : p ≠ MCPY_METHOD_DEFAULT) (hp2 : p ≠ MCPY_METHOD_POWERSAVING)
    (hp3 : p ≠ MCPY_METHOD_BALANCE) (hp4 : p ≠ MCPY_METHOD_PERFORMANCE)
    (hf1 : env.forceMode ≠ MCPY_METHOD_PERFORMANCE)
    (hf2 : env.forceMode ≠ MCPY_METHOD_POWERSAVING)
    (hf3 : env.forceMode ≠ MCPY_METHOD_BALANCE)
    (hf4 : env.forceMode ≠ 4)
    (h1 : env.srcInfoStatus = MOS_STATUS.success)
    (h2 : env.srcCompStatus = MOS_STATUS.success)
    (h3 : env.dstInfoStatus = MOS_STATUS.success)
    (h4 : env.dstCompStatus = MOS_STATUS.success)
    (hcap : (CapabilityCheck env.fsStatus env.fsCaps env.veboxSupported
        env.renderSupported env.allowCPBltCopy (mkSrcParams env src)
        (mkDstParams env dst)).1 = MOS_STATUS.success) :
    CopyEnigneSelect p eIn
        (CapabilityCheck env.fsStatus env.fsCaps env.veboxSupported
          env.renderSupported env.allowCPBltCopy (mkSrcParams env src)
          (mkDstParams env dst)).2 env.forceMode =
      (MOS_STATUS.success, eIn) ∧
    dispatchedEngine (SurfaceCopy env src dst p) = some MCPY_ENGINE.blt := by
  refine ⟨select_unchanged_of_unknown_pref p eIn _ env.forceMode
    hp1 hp2 hp3 hp4 hf1 hf2 hf3 hf4, ?_⟩
  have hsel := select_unchanged_of_unknown_pref p MCPY_ENGINE.blt
    (CapabilityCheck env.fsStatus env.fsCaps env.veboxSupported
      env.renderSupported env.allowCPBltCopy (mkSrcParams env src)
      (mkDstParams env dst)).2 env.forceMode
    hp1 hp2 hp3 hp4 hf1 hf2 hf3 hf4
  simp [SurfaceCopy, h1, h2, h3, h4, hcap, PreCheckCpCopy, hsel,
    dispatchedEngine, apply_ite]

/-- Environment for a copy call on which every external stage succeeds, all
engines are enabled, and no force-override is active. -/
def envPlain : CopyEnv :=
  { srcInfoStatus := MOS_STATUS.success,
    srcCompStatus := MOS_STATUS.success,
    srcCompressionMode := MOS_MEMCOMP_STATE.disabled,
    srcTileMode := MOS_TILE_TYPE.linear,
    srcCpTag := false,
    dstInfoStatus := MOS_STATUS.success,
    dstCompStatus := MOS_STATUS.success,
    dstCompressionMode := MOS_MEMCOMP_STATE.disabled,
    dstTileMode := MOS_TILE_TYPE.linear,
    dstCpTag := false,
    fsStatus := MOS_STATUS.success,
    fsCaps := { engineVebox := true, engineBlt := true,
                engineRender := true, engineRsvd := true },
    veboxSupported := true,
    renderSupported := true,
    allowCPBltCopy := true,
    forceMode := MCPY_METHOD_DEFAULT,
    ext := extAllSuccess,
    dumper := none }

/-- Witness for C10 at a concrete input: preference value 7 on the plain
all-success environment. -/
theorem C10_unknown_preference_dispatches_blt_witness :
    CopyEnigneSelect 7 MCPY_ENGINE.vebox
        (CapabilityCheck envPlain.fsStatus envPlain.fsCaps
          envPlain.veboxSupported envPlain.renderSupported
          envPlain.allowCPBltCopy (mkSrcParams envPlain 0)
          (mkDstParams envPlain 1)).2 envPlain.forceMode =
      (MOS_STATUS.success, MCPY_ENGINE.vebox) ∧
    dispatchedEngine (SurfaceCopy envPlain 0 1 7) = some MCPY_ENGINE.blt :=
  C10_unknown_preference_dispatches_blt envPlain 0 1 7 MCPY_ENGINE.vebox
    (by decide) (by decide) (by decide) (by decide)
    (by decide) (by decide) (by decide) (by decide)
    rfl rfl rfl rfl (by decide)

end MediaCopy
